import Mathlib

/-!
Verification of the product carousel script (src/yavuzselim_ercikan.js).

The script is embedded shallowly:
- browser local storage becomes a record of the two keys the script uses
  (productCarouselData and favorites), each holding an abstract stored JSON
  value that is either absent (getItem returns null, JSON.parse of null is
  null), corrupt (JSON.parse throws a SyntaxError), or a parsed value;
- the network becomes a response value passed to init / fetchProducts;
- the rendered DOM subtree becomes the list of carousel items in document
  order, each carrying its data-id attribute and the presence of the
  favorited class on its favorite button;
- each jQuery event handler becomes a function on the carousel state;
- exceptions become an error component in the result.
-/

namespace Carousel

/-- A stored JSON value as seen through localStorage.getItem followed by
JSON.parse: the key can be missing (parse of null yields null, which is
falsy), hold an unparseable string (JSON.parse throws), or hold a value that
parses to a. -/
inductive StoredJson (α : Type) where
  | absent
  | corrupt
  | value (a : α)
deriving Repr, DecidableEq

/-- A product record of the remote feed: id, name, img, price, url.
The url is optional: a record can lack a usable destination URL, which the
item-click handler treats as an error case. -/
structure Product (Id : Type) where
  id : Id
  name : String
  img : String
  price : Int
  url : Option String
deriving Repr, DecidableEq

/-- The browser-local store restricted to the two keys the script touches:
productCarouselData (the cached product sequence) and favorites (the
persisted sequence of favorited product ids). -/
structure Store (Id : Type) where
  productCarouselData : StoredJson (List (Product Id))
  favorites : StoredJson (List Id)
deriving Repr, DecidableEq

/-- The two exceptions the script can raise: the explicit throw in
fetchProducts on a non-OK response, and the SyntaxError JSON.parse raises on
a corrupt stored value. -/
inductive JsError where
  | fetchError
  | parseError
deriving Repr, DecidableEq

/-- The network response to the single GET of the product feed. -/
inductive FetchResponse (Id : Type) where
  | ok (body : List (Product Id))
  | notOk
deriving Repr, DecidableEq

/-- Embedding of fetchProducts: await fetch(productAPI); throw on a non-OK
response; otherwise return the decoded JSON body. -/
def fetchProducts {Id : Type} (resp : FetchResponse Id) :
    Except JsError (List (Product Id)) :=
  match resp with
  | .ok body => .ok body
  | .notOk => .error .fetchError

/-- Embedding of JSON.parse(localStorage.getItem(localStorageKey)) in init:
absent key parses to null (returned as none), a corrupt value throws, a
stored sequence is returned. -/
def parseStoredCache {Id : Type} (v : StoredJson (List (Product Id))) :
    Except JsError (Option (List (Product Id))) :=
  match v with
  | .absent => .ok none
  | .corrupt => .error .parseError
  | .value ps => .ok (some ps)

/-- Embedding of JSON.parse(localStorage.getItem(favoritesKey)) followed by
the JavaScript or-default with the empty array: an absent key yields the
empty sequence, a corrupt value throws, a stored sequence is returned (a
stored JSON array is always truthy, so the default never masks it). -/
def parseFavoritesOrEmpty {Id : Type} (v : StoredJson (List Id)) :
    Except JsError (List Id) :=
  match v with
  | .absent => .ok []
  | .corrupt => .error .parseError
  | .value f => .ok f

/-- One rendered carousel item: its data-id attribute and whether its
favorite button currently carries the favorited class. -/
structure RenderedItem (Id : Type) where
  dataId : Id
  favorited : Bool
deriving Repr, DecidableEq

/-- Embedding of buildHTML restricted to the structure the claims are about:
one carousel-item per product, in feed order, with data-id set to the
product id and the favorite button rendered without the favorited class. -/
def buildHTML {Id : Type} (products : List (Product Id)) :
    List (RenderedItem Id) :=
  products.map (fun p => { dataId := p.id, favorited := false })

/-- Embedding of the restore-on-load pass at the end of setEvents: for each
id of the persisted favorites sequence, addClass favorited on the favorite
button of every rendered item whose data-id equals that id (addClass is
idempotent, modeled by setting the flag to true). -/
def restoreFavorites {Id : Type} [DecidableEq Id] (favs : List Id)
    (items : List (RenderedItem Id)) : List (RenderedItem Id) :=
  favs.foldl
    (fun its fid =>
      its.map (fun it =>
        if it.dataId = fid then { it with favorited := true } else it))
    items

/-- The state the script maintains after initialization: the product
sequence in scope of setEvents, the rendered items, the scroll offset of the
track container, and the local store. -/
structure CarouselState (Id : Type) where
  products : List (Product Id)
  items : List (RenderedItem Id)
  scrollLeft : Int
  store : Store Id
deriving Repr, DecidableEq

/-- Result of a completed initialization: the resulting carousel state plus
how many network fetches the run performed. -/
structure InitResult (Id : Type) where
  state : CarouselState Id
  fetchCount : Nat
deriving Repr, DecidableEq

/-- Embedding of init followed by the body of setEvents that runs
immediately (the restore-on-load pass): read the product cache; if it parsed
to a value use it, otherwise fetch and write the full fetched sequence to
storage before building the HTML; then build the items and run the restore
pass over the persisted favorites. Exceptions (fetch failure, corrupt
stored JSON) propagate and abort initialization. -/
def init {Id : Type} [DecidableEq Id] (resp : FetchResponse Id)
    (store : Store Id) : Except JsError (InitResult Id) := do
  let parsed ← parseStoredCache store.productCarouselData
  let (products, store1, fetchCount) ←
    (match parsed with
     | some ps => (pure (ps, store, 0) : Except JsError _)
     | none => do
        let ps ← fetchProducts resp
        pure (ps, { store with productCarouselData := StoredJson.value ps }, 1))
  let items := buildHTML products
  let favs ← parseFavoritesOrEmpty store1.favorites
  let items2 := restoreFavorites favs items
  .ok { state := { products := products, items := items2, scrollLeft := 0,
                   store := store1 },
        fetchCount := fetchCount }

/-- Embedding of the carousel-next click handler: read the current scroll
offset; if advancing by one item width stays within the rightmost extent,
advance by exactly that width, otherwise settle at the maximum. -/
def nextClick {Id : Type} (itemWidth maxScrollLeft : Int)
    (st : CarouselState Id) : CarouselState Id :=
  if st.scrollLeft + itemWidth ≤ maxScrollLeft then
    { st with scrollLeft := st.scrollLeft + itemWidth }
  else
    { st with scrollLeft := maxScrollLeft }

/-- Embedding of the carousel-prev click handler: step back by one item
width when that stays nonnegative, otherwise settle at zero. -/
def prevClick {Id : Type} (itemWidth : Int) (st : CarouselState Id) :
    CarouselState Id :=
  if 0 ≤ st.scrollLeft - itemWidth then
    { st with scrollLeft := st.scrollLeft - itemWidth }
  else
    { st with scrollLeft := 0 }

/-- Observable outcome of the carousel-item click handler: either a URL
opened in a new browsing context via window.open, or a console.error report. -/
inductive NavEffect where
  | openedNewTab (url : String)
  | consoleError
deriving Repr, DecidableEq

/-- Embedding of the carousel-item click handler: resolve the data-id of
the clicked item against the product sequence with find; if a record is
found and its url is present, open it in a new tab; otherwise log an error
and continue. The handler never throws and never writes state. -/
def itemClick {Id : Type} [DecidableEq Id] (productId : Id)
    (st : CarouselState Id) : NavEffect × CarouselState Id :=
  match st.products.find? (fun p => decide (p.id = productId)) with
  | some product =>
    match product.url with
    | some u => (.openedNewTab u, st)
    | none => (.consoleError, st)
  | none => (.consoleError, st)

/-- Toggle the favorited class of the favorite button of the item at the
given document-order position, leaving every other item untouched
(embedding of toggleClass on the clicked button). -/
def toggleFavClass {Id : Type} : Nat → List (RenderedItem Id) →
    List (RenderedItem Id)
  | _, [] => []
  | 0, it :: rest => { it with favorited := !it.favorited } :: rest
  | n + 1, it :: rest => it :: toggleFavClass n rest

/-- Result of one run of the carousel-fav click handler: whether the run
stopped propagation of the click event, the state when the handler
returned or the exception escaped, and the escaped exception if any. -/
structure FavHandlerRun (Id : Type) where
  propagationStopped : Bool
  state : CarouselState Id
  thrown : Option JsError
deriving Repr, DecidableEq

/-- Embedding of the carousel-fav click handler for the favorite control of
the item at position idx. The first statement is e.stopPropagation, so every
run stops propagation. Then the handler toggles the favorited class of the
clicked button, reads the new class state, parses the persisted favorites
(or the empty sequence), pushes the id when now favorited or filters out all
its occurrences when not, and synchronously writes the result back to
storage. A corrupt favorites value makes JSON.parse throw after the class
was already toggled and before any write. -/
def favClickHandler {Id : Type} [DecidableEq Id] (idx : Nat)
    (st : CarouselState Id) : FavHandlerRun Id :=
  match st.items[idx]? with
  | none => { propagationStopped := true, state := st, thrown := none }
  | some it =>
    let isFavorited := !it.favorited
    let toggledItems := toggleFavClass idx st.items
    let productId := it.dataId
    match parseFavoritesOrEmpty st.store.favorites with
    | .error e =>
      { propagationStopped := true,
        state := { st with items := toggledItems },
        thrown := some e }
    | .ok favorites =>
      let favorites2 :=
        if isFavorited then favorites ++ [productId]
        else favorites.filter (fun i => decide (i ≠ productId))
      let store2 : Store Id := { st.store with favorites := .value favorites2 }
      { propagationStopped := true,
        state := { st with items := toggledItems, store := store2 },
        thrown := none }

/-- Outcome of dispatching one browser click: the final state, whether the
carousel-item click handler ran, and the navigation effect it produced if it
ran. -/
structure ClickDispatch (Id : Type) where
  state : CarouselState Id
  itemHandlerRan : Bool
  navEffect : Option NavEffect
deriving Repr, DecidableEq

/-- DOM event dispatch for a click landing on the favorite control nested
inside the item at position idx: the carousel-fav handler runs first; the
click then bubbles to the enclosing carousel-item handler unless propagation
was stopped during the inner run. -/
def clickOnFavControl {Id : Type} [DecidableEq Id] (idx : Nat)
    (st : CarouselState Id) : ClickDispatch Id :=
  let r := favClickHandler idx st
  if r.propagationStopped then
    { state := r.state, itemHandlerRan := false, navEffect := none }
  else
    match r.state.items[idx]? with
    | some it =>
      let (eff, st2) := itemClick it.dataId r.state
      { state := st2, itemHandlerRan := true, navEffect := some eff }
    | none =>
      { state := r.state, itemHandlerRan := false, navEffect := none }

/-- One carousel navigation click. -/
inductive NavClick where
  | next
  | prev
deriving Repr, DecidableEq

/-- Apply one navigation click with the given item width and maximum scroll
extent. -/
def applyNav {Id : Type} (itemWidth maxScrollLeft : Int) (c : NavClick)
    (st : CarouselState Id) : CarouselState Id :=
  match c with
  | .next => nextClick itemWidth maxScrollLeft st
  | .prev => prevClick itemWidth st

/-- Apply a sequence of navigation clicks in order. -/
def applyNavs {Id : Type} (itemWidth maxScrollLeft : Int)
    (cs : List NavClick) (st : CarouselState Id) : CarouselState Id :=
  cs.foldl (fun s c => applyNav itemWidth maxScrollLeft c s) st

/-- Apply a sequence of favorite-toggle interactions, each given by the
position of the clicked favorite control. -/
def applyToggles {Id : Type} [DecidableEq Id] (toggles : List Nat)
    (st : CarouselState Id) : CarouselState Id :=
  toggles.foldl (fun s i => (favClickHandler i s).state) st

/-- The favorites sequence a state persists: the stored value when one is
stored, the empty sequence otherwise. -/
def favsOf {Id : Type} (s : Store Id) : List Id :=
  match s.favorites with
  | .value f => f
  | _ => []

/-- The no-drift invariant of the spec: every rendered item carries the
favorited class exactly when its data-id is a member of the persisted
favorites sequence. -/
def favoritesInvariant {Id : Type} [DecidableEq Id]
    (st : CarouselState Id) : Prop :=
  ∀ it ∈ st.items, (it.favorited = true ↔ it.dataId ∈ favsOf st.store)

/-- Sample product list used by witnesses. -/
def sampleProducts : List (Product Nat) :=
  [{ id := 1, name := "alpha", img := "img1", price := 10, url := some "url1" },
   { id := 2, name := "beta", img := "img2", price := 20, url := none }]

/-- A store with both keys absent, used by witnesses. -/
def emptyStore : Store Nat :=
  { productCarouselData := .absent, favorites := .absent }

/-- A store whose product cache holds the sample products, used by
witnesses. -/
def cachedStore : Store Nat :=
  { productCarouselData := .value sampleProducts, favorites := .absent }

/-- A carousel state over the sample products, used by witnesses. -/
def sampleState : CarouselState Nat :=
  { products := sampleProducts, items := buildHTML sampleProducts,
    scrollLeft := 0, store := cachedStore }

/-- Every run of the carousel-fav click handler stops propagation, because
e.stopPropagation is the first statement of the handler. -/
theorem favClickHandler_stops_propagation {Id : Type} [DecidableEq Id]
    (idx : Nat) (st : CarouselState Id) :
    (favClickHandler idx st).propagationStopped = true := by
  unfold favClickHandler
  split
  · rfl
  · dsimp only
    split <;> rfl

/-- C3: evaluated at the failing input. With an unparseable stored product
cache the code does not treat the cache as absent: JSON.parse throws, the
exception aborts initialization, and no network fetch is performed, for
every network response and every stored favorites value. The claim (and the
spec) requires a fetch instead of the crash, so the code diverges from the
required fail-closed behavior. -/
theorem init_corrupt_cache_throws {Id : Type} [DecidableEq Id]
    (resp : FetchResponse Id) (favs : StoredJson (List Id)) :
    init resp { productCarouselData := .corrupt, favorites := favs } =
      .error .parseError := rfl

/-- C8: a non-OK network response makes fetchProducts fail with the fetch
error, and initialization from an empty product cache propagates that error
and terminates without producing any rendered result — no retry, no
fallback. -/
theorem fetch_failure_unrecovered {Id : Type} [DecidableEq Id] :
    fetchProducts (.notOk : FetchResponse Id) = .error .fetchError ∧
    ∀ s : Store Id, s.productCarouselData = .absent →
      init .notOk s = .error .fetchError := by
  refine ⟨rfl, ?_⟩
  rintro ⟨cache, favs⟩ h
  cases h
  rfl

/-- C8 witness at a concrete empty store. -/
theorem fetch_failure_unrecovered_witness :
    emptyStore.productCarouselData = StoredJson.absent ∧
    init FetchResponse.notOk emptyStore = Except.error JsError.fetchError :=
  ⟨rfl, (@fetch_failure_unrecovered Nat _).2 emptyStore rfl⟩

/-- C10: navigation interactions never touch persisted state. Next and
previous clicks leave the store (both keys), the rendered items (hence every
favorited class) and the product sequence unchanged, modifying only the
scroll offset; an item click leaves the whole state unchanged. -/
theorem navigation_frame_conditions {Id : Type} [DecidableEq Id]
    (itemWidth maxScrollLeft : Int) (st : CarouselState Id) (pid : Id) :
    (nextClick itemWidth maxScrollLeft st).store = st.store ∧
    (nextClick itemWidth maxScrollLeft st).items = st.items ∧
    (nextClick itemWidth maxScrollLeft st).products = st.products ∧
    (prevClick itemWidth st).store = st.store ∧
    (prevClick itemWidth st).items = st.items ∧
    (prevClick itemWidth st).products = st.products ∧
    (itemClick pid st).2 = st := by
  refine ⟨?_, ?_, ?_, ?_, ?_, ?_, ?_⟩ <;>
    first
      | (unfold nextClick; split <;> rfl)
      | (unfold prevClick; split <;> rfl)
      | (unfold itemClick; split <;> (try split) <;> rfl)

/-- C7: a click on the favorite control never triggers item navigation.
Because the favorite handler stops propagation in every run, the item click
handler does not run and no URL is opened, even though the control is
nested inside the clickable item area. -/
theorem favControl_click_never_navigates {Id : Type} [DecidableEq Id]
    (idx : Nat) (st : CarouselState Id) :
    (clickOnFavControl idx st).itemHandlerRan = false ∧
    (clickOnFavControl idx st).navEffect = none := by
  unfold clickOnFavControl
  simp [favClickHandler_stops_propagation]

/-- C9: an item click resolves the clicked id against the product sequence:
when a matching record is found and carries a URL, that URL is opened in a
new tab; when the record lacks a URL or no record matches, the handler
reports a console error; in every case the handler returns normally with the
state unchanged. -/
theorem itemClick_resolution {Id : Type} [DecidableEq Id]
    (st : CarouselState Id) (pid : Id) :
    (itemClick pid st).2 = st ∧
    (∀ p, st.products.find? (fun q => decide (q.id = pid)) = some p →
      (∀ u, p.url = some u →
        (itemClick pid st).1 = NavEffect.openedNewTab u) ∧
      (p.url = none → (itemClick pid st).1 = NavEffect.consoleError)) ∧
    (st.products.find? (fun q => decide (q.id = pid)) = none →
      (itemClick pid st).1 = NavEffect.consoleError) := by
  refine ⟨?_, ?_, ?_⟩
  · unfold itemClick; split <;> (try split) <;> rfl
  · intro p hp
    constructor
    · intro u hu
      unfold itemClick
      rw [hp]
      dsimp only
      rw [hu]
    · intro hu
      unfold itemClick
      rw [hp]
      dsimp only
      rw [hu]
  · intro h
    unfold itemClick
    rw [h]

/-- C9 witness: on the sample state, clicking item 1 opens its URL and
leaves the state unchanged. -/
theorem itemClick_resolution_witness :
    sampleState.products.find? (fun q => decide (q.id = 1)) =
      some { id := 1, name := "alpha", img := "img1", price := 10,
             url := some "url1" } ∧
    (itemClick 1 sampleState).1 = NavEffect.openedNewTab "url1" ∧
    (itemClick 1 sampleState).2 = sampleState := by
  refine ⟨rfl, ?_, (itemClick_resolution sampleState 1).1⟩
  exact ((itemClick_resolution sampleState 1).2.1 _ rfl).1 "url1" rfl

/-- C1: initialization is cache-first and caches idempotently. From an empty
store, initialization fetches once, writes the full fetched sequence to the
product-cache key, and renders it; a second initialization on the resulting
store performs no fetch, uses the cached sequence, and leaves the store
unchanged, so the two runs perform exactly one fetch in total. Moreover any
initialization that finds a present, parseable product cache performs no
fetch, uses the cached sequence, and writes nothing. -/
theorem init_cache_first_idempotent {Id : Type} [DecidableEq Id]
    (body : List (Product Id)) (resp2 : FetchResponse Id) :
    (∃ r1 : InitResult Id,
      init (.ok body)
          { productCarouselData := .absent, favorites := .absent } = .ok r1 ∧
      r1.fetchCount = 1 ∧
      r1.state.store.productCarouselData = .value body ∧
      r1.state.products = body ∧
      ∃ r2 : InitResult Id,
        init resp2 r1.state.store = .ok r2 ∧
        r2.fetchCount = 0 ∧
        r2.state.products = body ∧
        r2.state.store = r1.state.store ∧
        r1.fetchCount + r2.fetchCount = 1) ∧
    (∀ (s : Store Id) (ps : List (Product Id)) (resp : FetchResponse Id),
      s.productCarouselData = .value ps → s.favorites ≠ .corrupt →
      ∃ r : InitResult Id,
        init resp s = .ok r ∧ r.fetchCount = 0 ∧
        r.state.products = ps ∧ r.state.store = s) := by
  constructor
  · exact ⟨_, rfl, rfl, rfl, rfl, _, rfl, rfl, rfl, rfl, rfl⟩
  · rintro ⟨cache, favs⟩ ps resp h hc
    cases h
    cases favs with
    | absent => exact ⟨_, rfl, rfl, rfl, rfl⟩
    | corrupt => exact absurd rfl hc
    | value f => exact ⟨_, rfl, rfl, rfl, rfl⟩

/-- C1 witness: the cache-first clause applied to the concrete cached
store. -/
theorem init_cache_first_idempotent_witness :
    ∃ r : InitResult Nat,
      init FetchResponse.notOk cachedStore = .ok r ∧ r.fetchCount = 0 ∧
      r.state.products = sampleProducts ∧ r.state.store = cachedStore :=
  (init_cache_first_idempotent sampleProducts FetchResponse.notOk).2
    cachedStore sampleProducts FetchResponse.notOk rfl (by decide)

/-- The scroll offset a next click produces, as a plain conditional. -/
theorem nextClick_scrollLeft {Id : Type} (W M : Int) (st : CarouselState Id) :
    (nextClick W M st).scrollLeft =
      if st.scrollLeft + W ≤ M then st.scrollLeft + W else M := by
  unfold nextClick
  split <;> rfl

/-- The scroll offset a previous click produces, as a plain conditional. -/
theorem prevClick_scrollLeft {Id : Type} (W : Int) (st : CarouselState Id) :
    (prevClick W st).scrollLeft =
      if 0 ≤ st.scrollLeft - W then st.scrollLeft - W else 0 := by
  unfold prevClick
  split <;> rfl

/-- One navigation click keeps the scroll offset within the closed interval
from zero to the maximum extent. -/
theorem applyNav_scroll_bounds {Id : Type} (W M : Int) (hW : 0 ≤ W)
    (hM : 0 ≤ M) (c : NavClick) (st : CarouselState Id)
    (h1 : 0 ≤ st.scrollLeft) (h2 : st.scrollLeft ≤ M) :
    0 ≤ (applyNav W M c st).scrollLeft ∧ (applyNav W M c st).scrollLeft ≤ M := by
  cases c with
  | next =>
    show 0 ≤ (nextClick W M st).scrollLeft ∧ (nextClick W M st).scrollLeft ≤ M
    rw [nextClick_scrollLeft]
    constructor <;> (split <;> omega)
  | prev =>
    show 0 ≤ (prevClick W st).scrollLeft ∧ (prevClick W st).scrollLeft ≤ M
    rw [prevClick_scrollLeft]
    constructor <;> (split <;> omega)

/-- Any sequence of navigation clicks keeps the scroll offset within the
closed interval from zero to the maximum extent. -/
theorem applyNavs_scroll_bounds {Id : Type} (W M : Int) (hW : 0 ≤ W)
    (hM : 0 ≤ M) (cs : List NavClick) (st : CarouselState Id)
    (h1 : 0 ≤ st.scrollLeft) (h2 : st.scrollLeft ≤ M) :
    0 ≤ (applyNavs W M cs st).scrollLeft ∧
    (applyNavs W M cs st).scrollLeft ≤ M := by
  induction cs generalizing st with
  | nil => exact ⟨h1, h2⟩
  | cons c cs ih =>
    have h := applyNav_scroll_bounds W M hW hM c st h1 h2
    simpa only [applyNavs, List.foldl_cons] using ih _ h.1 h.2

/-- Starting at offset zero, the first j next clicks (j at most D, with
maximum extent D times the item width) each advance by exactly one item
width, landing at offset j times the item width. -/
theorem nextClick_iter_exact {Id : Type} (W : Int) (hW : 0 < W) (D : Nat)
    (st : CarouselState Id) (h0 : st.scrollLeft = 0) :
    ∀ j : Nat, j ≤ D →
      ((nextClick W ((D : Int) * W))^[j] st).scrollLeft = (j : Int) * W := by
  intro j
  induction j with
  | zero => intro _; simpa using h0
  | succ j ih =>
    intro hj
    have hs := ih (Nat.le_of_succ_le hj)
    rw [Function.iterate_succ_apply', nextClick_scrollLeft, hs]
    have hcast : ((j : Int) + 1) * W ≤ (D : Int) * W := by
      apply mul_le_mul_of_nonneg_right _ (le_of_lt hW)
      exact_mod_cast hj
    rw [add_one_mul] at hcast
    rw [if_pos hcast]
    push_cast
    ring

/-- A next click at the maximum extent leaves the offset unchanged. -/
theorem nextClick_at_max {Id : Type} (W M : Int) (hW : 0 < W)
    (st : CarouselState Id) (h : st.scrollLeft = M) :
    (nextClick W M st).scrollLeft = M := by
  rw [nextClick_scrollLeft, if_neg (by omega)]

/-- Any number of further next clicks at the maximum extent leave the
offset unchanged. -/
theorem nextClick_stays_max {Id : Type} (W M : Int) (hW : 0 < W)
    (st : CarouselState Id) (h : st.scrollLeft = M) :
    ∀ m : Nat, ((nextClick W M)^[m] st).scrollLeft = M := by
  intro m
  induction m with
  | zero => simpa using h
  | succ m ih =>
    rw [Function.iterate_succ_apply']
    exact nextClick_at_max W M hW _ ih

/-- C6: scroll clamping. A next click advances the offset by exactly one
item width when that stays within the rightmost extent and otherwise sets it
to that maximum; a previous click is symmetric, clamped at zero. With N
items of width W, K of them visible, and maximum extent (N minus K) times W:
starting from offset zero, N minus K next clicks land exactly at that
maximum, every further next click leaves it unchanged, and no sequence of
next and previous clicks ever drives the offset below zero or above the
maximum. -/
theorem scroll_clamping {Id : Type} [DecidableEq Id] (W M : Int) (N K : Nat)
    (hW : 0 < W) (hKN : K ≤ N) (hM : M = ((N - K : Nat) : Int) * W)
    (st : CarouselState Id) (h0 : st.scrollLeft = 0) :
    (∀ s : CarouselState Id, s.scrollLeft + W ≤ M →
      (nextClick W M s).scrollLeft = s.scrollLeft + W) ∧
    (∀ s : CarouselState Id, M < s.scrollLeft + W →
      (nextClick W M s).scrollLeft = M) ∧
    (∀ s : CarouselState Id, 0 ≤ s.scrollLeft - W →
      (prevClick W s).scrollLeft = s.scrollLeft - W) ∧
    (∀ s : CarouselState Id, s.scrollLeft - W < 0 →
      (prevClick W s).scrollLeft = 0) ∧
    ((nextClick W M)^[N - K] st).scrollLeft = M ∧
    (∀ m : Nat, ((nextClick W M)^[(N - K) + m] st).scrollLeft = M) ∧
    (∀ cs : List NavClick,
      0 ≤ (applyNavs W M cs st).scrollLeft ∧
      (applyNavs W M cs st).scrollLeft ≤ M) := by
  have hM0 : 0 ≤ M := by
    rw [hM]
    exact mul_nonneg (Int.natCast_nonneg _) (le_of_lt hW)
  have hexact : ((nextClick W M)^[N - K] st).scrollLeft = M := by
    rw [hM]
    exact nextClick_iter_exact W hW (N - K) st h0 (N - K) (le_refl _)
  refine ⟨?_, ?_, ?_, ?_, hexact, ?_, ?_⟩
  · intro s hs
    rw [nextClick_scrollLeft, if_pos hs]
  · intro s hs
    rw [nextClick_scrollLeft, if_neg (by omega)]
  · intro s hs
    rw [prevClick_scrollLeft, if_pos hs]
  · intro s hs
    rw [prevClick_scrollLeft, if_neg (by omega)]
  · intro m
    rw [Nat.add_comm, Function.iterate_add_apply]
    exact nextClick_stays_max W M hW _ hexact m
  · intro cs
    exact applyNavs_scroll_bounds W M (le_of_lt hW) hM0 cs st
      (by rw [h0]) (by rw [h0]; exact hM0)

/-- C6 witness: five sample items of width ten with two visible; three next
clicks land at thirty and the offset stays within bounds under every click
sequence. -/
theorem scroll_clamping_witness :
    ((nextClick 10 30)^[3] sampleState).scrollLeft = 30 ∧
    (∀ cs : List NavClick,
      0 ≤ (applyNavs 10 30 cs sampleState).scrollLeft ∧
      (applyNavs 10 30 cs sampleState).scrollLeft ≤ 30) := by
  have h := scroll_clamping 10 30 5 2 (by decide) (by decide) (by decide)
    sampleState rfl
  exact ⟨h.2.2.2.2.1, h.2.2.2.2.2.2⟩

/-- The restore-on-load pass marks an item favorited exactly when its class
was already set or its data-id occurs in the persisted sequence. -/
theorem restoreFavorites_eq_map {Id : Type} [DecidableEq Id]
    (favs : List Id) :
    ∀ items : List (RenderedItem Id),
      restoreFavorites favs items =
        items.map (fun it =>
          { dataId := it.dataId,
            favorited := it.favorited || decide (it.dataId ∈ favs) }) := by
  induction favs with
  | nil =>
    intro items
    show items = _
    rw [show (fun it : RenderedItem Id =>
        ({ dataId := it.dataId,
           favorited := it.favorited || decide (it.dataId ∈ ([] : List Id)) } :
          RenderedItem Id)) = id from ?_]
    · rw [List.map_id]
    · funext it
      simp
  | cons fid rest ih =>
    intro items
    show restoreFavorites rest _ = _
    rw [ih, List.map_map]
    congr 1
    funext it
    by_cases hd : it.dataId = fid <;>
      simp [Function.comp, hd, List.mem_cons]

/-- Toggling the favorited class leaves the data-id of every rendered item
in place. -/
theorem toggleFavClass_map_dataId {Id : Type} :
    ∀ (idx : Nat) (items : List (RenderedItem Id)),
      (toggleFavClass idx items).map RenderedItem.dataId =
        items.map RenderedItem.dataId
  | idx, [] => by cases idx <;> rfl
  | 0, a :: rest => by simp [toggleFavClass]
  | n + 1, a :: rest => by
      simp [toggleFavClass, toggleFavClass_map_dataId n rest]

/-- Toggling the same favorite control twice restores the rendered items. -/
theorem toggleFavClass_involutive {Id : Type} :
    ∀ (idx : Nat) (items : List (RenderedItem Id)),
      toggleFavClass idx (toggleFavClass idx items) = items
  | idx, [] => by cases idx <;> rfl
  | 0, ⟨d, f⟩ :: rest => by simp [toggleFavClass]
  | n + 1, a :: rest => by
      simp [toggleFavClass, toggleFavClass_involutive n rest]

/-- The item at the clicked position after a toggle: same data-id, negated
favorited class. -/
theorem toggleFavClass_getElem_self {Id : Type} :
    ∀ (idx : Nat) (items : List (RenderedItem Id)) (it : RenderedItem Id),
      items[idx]? = some it →
      (toggleFavClass idx items)[idx]? =
        some { dataId := it.dataId, favorited := !it.favorited }
  | idx, [], it => by cases idx <;> simp
  | 0, a :: rest, it => by
      intro h
      rw [List.getElem?_cons_zero] at h
      injection h with h
      subst h
      rw [show toggleFavClass 0 (a :: rest) =
            { a with favorited := !a.favorited } :: rest from rfl,
        List.getElem?_cons_zero]
  | n + 1, a :: rest, it => by
      intro h
      rw [List.getElem?_cons_succ] at h
      rw [show toggleFavClass (n + 1) (a :: rest) =
            a :: toggleFavClass n rest from rfl,
        List.getElem?_cons_succ]
      exact toggleFavClass_getElem_self n rest it h

/-- When the favorites value parses, the persisted sequence the state uses
is exactly the parse result. -/
theorem favsOf_parse {Id : Type} (s : Store Id) (favs : List Id)
    (h : parseFavoritesOrEmpty s.favorites = .ok favs) :
    favsOf s = favs := by
  unfold favsOf
  cases hv : s.favorites with
  | absent =>
    rw [hv] at h
    exact Except.ok.inj h
  | corrupt =>
    rw [hv] at h
    exact Except.noConfusion h
  | value f =>
    rw [hv] at h
    exact Except.ok.inj h

/-- The favorites sequence one toggle persists: the prior sequence with the
clicked id appended when the item becomes favorited, or with all its
occurrences filtered out when it becomes unfavorited. -/
def updatedFavorites {Id : Type} [DecidableEq Id] (it : RenderedItem Id)
    (favs : List Id) : List Id :=
  if it.favorited then favs.filter (fun i => decide (i ≠ it.dataId))
  else favs ++ [it.dataId]

/-- The carousel state one successful toggle produces. -/
def favClickSuccessState {Id : Type} [DecidableEq Id] (idx : Nat)
    (st : CarouselState Id) (it : RenderedItem Id) (favs : List Id) :
    CarouselState Id :=
  let store2 : Store Id :=
    { st.store with favorites := StoredJson.value (updatedFavorites it favs) }
  { st with items := toggleFavClass idx st.items, store := store2 }

/-- Shape of one successful favorite-toggle run: the clicked class is
toggled, the stored favorites become the appended or filtered sequence, and
no exception escapes. -/
theorem favClickHandler_state_of_parse {Id : Type} [DecidableEq Id]
    (idx : Nat) (st : CarouselState Id) (it : RenderedItem Id)
    (favs : List Id) (hget : st.items[idx]? = some it)
    (hparse : parseFavoritesOrEmpty st.store.favorites = .ok favs) :
    (favClickHandler idx st).state = favClickSuccessState idx st it favs ∧
    (favClickHandler idx st).thrown = none := by
  unfold favClickHandler favClickSuccessState updatedFavorites
  rw [hget]
  dsimp only
  rw [hparse]
  dsimp only
  constructor
  · cases hfav : it.favorited <;> simp [hfav]
  · rfl

/-- Shape of a successful initialization: the favorites key is untouched,
it parsed, and the rendered items are the restore pass applied to the
freshly built HTML of the product sequence in scope. -/
theorem init_ok_shape {Id : Type} [DecidableEq Id]
    (resp : FetchResponse Id) (store : Store Id) (r : InitResult Id)
    (h : init resp store = .ok r) :
    ∃ favs : List Id,
      parseFavoritesOrEmpty store.favorites = .ok favs ∧
      r.state.store.favorites = store.favorites ∧
      r.state.items = restoreFavorites favs (buildHTML r.state.products) := by
  rcases store with ⟨cache, favsv⟩
  cases cache with
  | corrupt =>
    exact Except.noConfusion
      (show (Except.error JsError.parseError :
        Except JsError (InitResult Id)) = .ok r from h)
  | value ps =>
    cases favsv with
    | corrupt =>
      exact Except.noConfusion
        (show (Except.error JsError.parseError :
          Except JsError (InitResult Id)) = .ok r from h)
    | absent =>
      have h2 := (Except.ok.inj
        (show Except.ok
          ({ state := { products := ps,
                        items := restoreFavorites [] (buildHTML ps),
                        scrollLeft := 0,
                        store := { productCarouselData := .value ps,
                                   favorites := .absent } },
             fetchCount := 0 } : InitResult Id) = .ok r from h))
      exact ⟨[], rfl, by rw [← h2], by rw [← h2]⟩
    | value f =>
      have h2 := (Except.ok.inj
        (show Except.ok
          ({ state := { products := ps,
                        items := restoreFavorites f (buildHTML ps),
                        scrollLeft := 0,
                        store := { productCarouselData := .value ps,
                                   favorites := .value f } },
             fetchCount := 0 } : InitResult Id) = .ok r from h))
      exact ⟨f, rfl, by rw [← h2], by rw [← h2]⟩
  | absent =>
    cases resp with
    | notOk =>
      exact Except.noConfusion
        (show (Except.error JsError.fetchError :
          Except JsError (InitResult Id)) = .ok r from h)
    | ok body =>
      cases favsv with
      | corrupt =>
        exact Except.noConfusion
          (show (Except.error JsError.parseError :
            Except JsError (InitResult Id)) = .ok r from h)
      | absent =>
        have h2 := (Except.ok.inj
          (show Except.ok
            ({ state := { products := body,
                          items := restoreFavorites [] (buildHTML body),
                          scrollLeft := 0,
                          store := { productCarouselData := .value body,
                                     favorites := .absent } },
               fetchCount := 1 } : InitResult Id) = .ok r from h))
        exact ⟨[], rfl, by rw [← h2], by rw [← h2]⟩
      | value f =>
        have h2 := (Except.ok.inj
          (show Except.ok
            ({ state := { products := body,
                          items := restoreFavorites f (buildHTML body),
                          scrollLeft := 0,
                          store := { productCarouselData := .value body,
                                     favorites := .value f } },
               fetchCount := 1 } : InitResult Id) = .ok r from h))
        exact ⟨f, rfl, by rw [← h2], by rw [← h2]⟩

/-- Every item produced by building the HTML and running the restore pass
agrees with the persisted sequence. -/
theorem restore_invariant {Id : Type} [DecidableEq Id]
    (products : List (Product Id)) (favs : List Id) :
    ∀ it ∈ restoreFavorites favs (buildHTML products),
      (it.favorited = true ↔ it.dataId ∈ favs) := by
  intro it hit
  rw [restoreFavorites_eq_map, buildHTML, List.map_map, List.mem_map] at hit
  obtain ⟨p, hp, hpe⟩ := hit
  subst hpe
  simp [Function.comp]

/-- One toggle preserves the no-drift correspondence pointwise: when the
rendered ids are pairwise distinct and every item agrees with the prior
sequence, every item of the toggled rendering agrees with the updated
sequence. -/
theorem toggle_preserves_pointwise {Id : Type} [DecidableEq Id] :
    ∀ (items : List (RenderedItem Id)) (idx : Nat) (it : RenderedItem Id)
      (favs : List Id),
      items[idx]? = some it →
      (items.map RenderedItem.dataId).Nodup →
      (∀ x ∈ items, x.favorited = true ↔ x.dataId ∈ favs) →
      ∀ y ∈ toggleFavClass idx items,
        (y.favorited = true ↔ y.dataId ∈ updatedFavorites it favs)
  | [], idx, it, favs => by cases idx <;> simp
  | a :: rest, 0, it, favs => by
      intro hget hnodup hinv y hy
      rw [List.getElem?_cons_zero] at hget
      injection hget with hget
      subst hget
      rw [show toggleFavClass 0 (a :: rest) =
            { a with favorited := !a.favorited } :: rest from rfl] at hy
      rw [List.map_cons, List.nodup_cons] at hnodup
      rcases List.mem_cons.mp hy with hy | hy
      · subst hy
        unfold updatedFavorites
        cases hfav : a.favorited <;>
          simp [hfav, List.mem_filter]
      · have hne : y.dataId ≠ a.dataId := by
          intro he
          apply hnodup.1
          rw [← he]
          exact List.mem_map_of_mem RenderedItem.dataId hy
        have hx := hinv y (List.mem_cons_of_mem a hy)
        unfold updatedFavorites
        cases hfav : a.favorited <;>
          simp [hfav, List.mem_filter, hne, hx]
  | a :: rest, n + 1, it, favs => by
      intro hget hnodup hinv y hy
      rw [List.getElem?_cons_succ] at hget
      rw [show toggleFavClass (n + 1) (a :: rest) =
            a :: toggleFavClass n rest from rfl] at hy
      rw [List.map_cons, List.nodup_cons] at hnodup
      rcases List.mem_cons.mp hy with hy | hy
      · subst hy
        have hmem : it ∈ rest := List.getElem?_mem hget
        have hne : y.dataId ≠ it.dataId := by
          intro he
          apply hnodup.1
          rw [he]
          exact List.mem_map_of_mem RenderedItem.dataId hmem
        have hx := hinv y (List.mem_cons_self y rest)
        unfold updatedFavorites
        cases hfav : it.favorited <;>
          simp [hfav, List.mem_filter, hne, hx]
      · exact toggle_preserves_pointwise rest n it favs hget hnodup.2
          (fun x hx => hinv x (List.mem_cons_of_mem a hx)) y hy

/-- One favorite toggle preserves the no-drift invariant, keeps the
favorites key parseable, and keeps the rendered ids unchanged. -/
theorem favClick_preserves {Id : Type} [DecidableEq Id] (idx : Nat)
    (st : CarouselState Id)
    (hnc : st.store.favorites ≠ StoredJson.corrupt)
    (hnodup : (st.items.map RenderedItem.dataId).Nodup)
    (hinv : favoritesInvariant st) :
    favoritesInvariant (favClickHandler idx st).state ∧
    (favClickHandler idx st).state.store.favorites ≠ StoredJson.corrupt ∧
    ((favClickHandler idx st).state.items.map RenderedItem.dataId).Nodup := by
  cases hget : st.items[idx]? with
  | none =>
    have hst : (favClickHandler idx st).state = st := by
      unfold favClickHandler
      rw [hget]
    rw [hst]
    exact ⟨hinv, hnc, hnodup⟩
  | some it =>
    obtain ⟨favs, hparse, hfavsOf⟩ :
        ∃ favs, parseFavoritesOrEmpty st.store.favorites = .ok favs ∧
          favsOf st.store = favs := by
      cases hF : st.store.favorites with
      | corrupt => exact absurd hF hnc
      | absent => exact ⟨[], rfl, by unfold favsOf; rw [hF]⟩
      | value F => exact ⟨F, rfl, by unfold favsOf; rw [hF]⟩
    obtain ⟨hstate, -⟩ :=
      favClickHandler_state_of_parse idx st it favs hget hparse
    have hitems : (favClickHandler idx st).state.items =
        toggleFavClass idx st.items := by
      rw [hstate]
      rfl
    have hfavs2 : favsOf (favClickHandler idx st).state.store =
        updatedFavorites it favs := by
      rw [hstate]
      rfl
    have hnc2 : (favClickHandler idx st).state.store.favorites =
        StoredJson.value (updatedFavorites it favs) := by
      rw [hstate]
      rfl
    have hinv2 : ∀ x ∈ st.items, x.favorited = true ↔ x.dataId ∈ favs :=
      fun x hx => hfavsOf ▸ hinv x hx
    refine ⟨?_, ?_, ?_⟩
    · intro y hy
      rw [hitems] at hy
      rw [hfavs2]
      exact toggle_preserves_pointwise st.items idx it favs hget hnodup
        hinv2 y hy
    · rw [hnc2]
      intro h
      exact StoredJson.noConfusion h
    · rw [hitems, toggleFavClass_map_dataId]
      exact hnodup

/-- Sequences of toggles preserve the invariant bundle. -/
theorem applyToggles_preserves {Id : Type} [DecidableEq Id] :
    ∀ (toggles : List Nat) (st : CarouselState Id),
      st.store.favorites ≠ StoredJson.corrupt →
      (st.items.map RenderedItem.dataId).Nodup →
      favoritesInvariant st →
      favoritesInvariant (applyToggles toggles st) ∧
      (applyToggles toggles st).store.favorites ≠ StoredJson.corrupt ∧
      ((applyToggles toggles st).items.map RenderedItem.dataId).Nodup
  | [], st => fun hnc hnodup hinv => ⟨hinv, hnc, hnodup⟩
  | i :: rest, st => fun hnc hnodup hinv => by
      obtain ⟨h1, h2, h3⟩ := favClick_preserves i st hnc hnodup hinv
      have hrec :=
        applyToggles_preserves rest (favClickHandler i st).state h2 h3 h1
      simpa [applyToggles, List.foldl_cons] using hrec

/-- C2: no drift between rendered favorited state and the persisted
favorites. After a completed initialization whose rendered items carry
pairwise distinct ids, every rendered item carries the favorited class
exactly when its id is a member of the persisted favorites sequence, and
the correspondence still holds after every sequence of favorite-toggle
interactions. -/
theorem favorites_no_drift {Id : Type} [DecidableEq Id]
    (resp : FetchResponse Id) (store : Store Id) (r : InitResult Id)
    (hinit : init resp store = .ok r)
    (hnodup : (r.state.items.map RenderedItem.dataId).Nodup)
    (toggles : List Nat) :
    favoritesInvariant r.state ∧
    favoritesInvariant (applyToggles toggles r.state) := by
  obtain ⟨favs, hparse, hkey, hitems⟩ := init_ok_shape resp store r hinit
  have hfavsOf : favsOf r.state.store = favs := by
    apply favsOf_parse
    rw [hkey]
    exact hparse
  have hbase : favoritesInvariant r.state := by
    intro y hy
    rw [hitems] at hy
    rw [hfavsOf]
    exact restore_invariant r.state.products favs y hy
  have hnc : r.state.store.favorites ≠ StoredJson.corrupt := by
    rw [hkey]
    intro h
    rw [h] at hparse
    exact Except.noConfusion
      (show (Except.error JsError.parseError : Except JsError (List Id)) =
        .ok favs from hparse)
  exact ⟨hbase,
    (applyToggles_preserves toggles r.state hnc hnodup hbase).1⟩

/-- C4: a favorite toggle updates stored favorites by append or filter and
persists it within the same handler run. For a toggle on the item at a
position holding some id, with prior stored favorites sequence F: when the
toggle makes the item favorited (its class was off) the stored sequence
becomes F with the id appended; when it makes it unfavorited (its class was
on) it becomes F with every occurrence of the id removed; no exception
escapes the run. -/
theorem favClick_updates_stored_favorites {Id : Type} [DecidableEq Id]
    (st : CarouselState Id) (idx : Nat) (it : RenderedItem Id) (F : List Id)
    (hget : st.items[idx]? = some it)
    (hF : st.store.favorites = StoredJson.value F) :
    (favClickHandler idx st).thrown = none ∧
    (it.favorited = false →
      (favClickHandler idx st).state.store.favorites =
        StoredJson.value (F ++ [it.dataId])) ∧
    (it.favorited = true →
      (favClickHandler idx st).state.store.favorites =
        StoredJson.value (F.filter (fun i => decide (i ≠ it.dataId)))) := by
  have hparse : parseFavoritesOrEmpty st.store.favorites = .ok F := by
    rw [hF]
    rfl
  obtain ⟨hstate, hthrown⟩ :=
    favClickHandler_state_of_parse idx st it F hget hparse
  refine ⟨hthrown, ?_, ?_⟩
  · intro hfav
    rw [hstate]
    show StoredJson.value (updatedFavorites it F) = _
    unfold updatedFavorites
    rw [hfav]
    simp
  · intro hfav
    rw [hstate]
    show StoredJson.value (updatedFavorites it F) = _
    unfold updatedFavorites
    rw [hfav]
    simp

/-- A carousel state over the sample products with a stored favorites
sequence, used by witnesses. -/
def favToggleState : CarouselState Nat :=
  let store : Store Nat :=
    { productCarouselData := .value sampleProducts, favorites := .value [2] }
  { products := sampleProducts, items := buildHTML sampleProducts,
    scrollLeft := 0, store := store }

/-- C4 witness: toggling the first sample item (id 1, not favorited) over
stored favorites [2] persists [2, 1]. -/
theorem favClick_updates_stored_favorites_witness :
    favToggleState.items[0]? = some { dataId := 1, favorited := false } ∧
    favToggleState.store.favorites = StoredJson.value [2] ∧
    (favClickHandler 0 favToggleState).thrown = none ∧
    (favClickHandler 0 favToggleState).state.store.favorites =
      StoredJson.value [2, 1] := by
  have h := favClick_updates_stored_favorites favToggleState 0
    { dataId := 1, favorited := false } [2] (by decide) rfl
  refine ⟨by decide, rfl, h.1, ?_⟩
  have h2 := h.2.1 rfl
  simpa using h2

/-- C5: double-toggle round trip. From any state in which the clicked item
agrees with the stored sequence (the coherence the no-drift invariant
guarantees for every reachable state), toggling the same favorite control
twice leaves the rendered items exactly as they were — in particular the
clicked item regains its original class — and leaves the membership of
every id in the persisted favorites sequence unchanged. -/
theorem favClick_double_toggle_roundtrip {Id : Type} [DecidableEq Id]
    (st : CarouselState Id) (idx : Nat) (it : RenderedItem Id) (F : List Id)
    (hget : st.items[idx]? = some it)
    (hF : st.store.favorites = StoredJson.value F)
    (hcoh : it.favorited = true ↔ it.dataId ∈ F) :
    (favClickHandler idx (favClickHandler idx st).state).state.items =
      st.items ∧
    (∀ x : Id,
      x ∈ favsOf
        (favClickHandler idx (favClickHandler idx st).state).state.store ↔
      x ∈ favsOf st.store) := by
  have hparse : parseFavoritesOrEmpty st.store.favorites = .ok F := by
    rw [hF]
    rfl
  obtain ⟨hstate1, -⟩ :=
    favClickHandler_state_of_parse idx st it F hget hparse
  have hget1 : (favClickHandler idx st).state.items[idx]? =
      some { dataId := it.dataId, favorited := !it.favorited } := by
    rw [hstate1]
    show (toggleFavClass idx st.items)[idx]? = _
    exact toggleFavClass_getElem_self idx st.items it hget
  have hparse1 :
      parseFavoritesOrEmpty (favClickHandler idx st).state.store.favorites =
        .ok (updatedFavorites it F) := by
    rw [hstate1]
    rfl
  obtain ⟨hstate2, -⟩ := favClickHandler_state_of_parse idx
    (favClickHandler idx st).state
    { dataId := it.dataId, favorited := !it.favorited }
    (updatedFavorites it F) hget1 hparse1
  constructor
  · rw [hstate2]
    show toggleFavClass idx (favClickHandler idx st).state.items = st.items
    rw [hstate1]
    show toggleFavClass idx (toggleFavClass idx st.items) = st.items
    exact toggleFavClass_involutive idx st.items
  · intro x
    have hl :
        favsOf
          (favClickHandler idx (favClickHandler idx st).state).state.store =
        updatedFavorites
          { dataId := it.dataId, favorited := !it.favorited }
          (updatedFavorites it F) := by
      rw [hstate2]
      rfl
    have hr : favsOf st.store = F := by
      unfold favsOf
      rw [hF]
    rw [hl, hr]
    unfold updatedFavorites
    cases hfav : it.favorited
    · have hni : it.dataId ∉ F := by
        intro hm
        rw [hcoh.mpr hm] at hfav
        exact Bool.noConfusion hfav
      by_cases hx : x = it.dataId
      · subst hx
        simp [hfav, List.mem_filter, hni]
      · simp [hfav, List.mem_filter, List.mem_append, hx]
    · have hmem : it.dataId ∈ F := hcoh.mp hfav
      by_cases hx : x = it.dataId
      · subst hx
        simp [hfav, List.mem_filter, List.mem_append, hmem]
      · simp [hfav, List.mem_filter, List.mem_append, hx]

/-- C5 witness: double toggle of the first sample item over stored
favorites [2]. -/
theorem favClick_double_toggle_roundtrip_witness :
    favToggleState.items[0]? = some { dataId := 1, favorited := false } ∧
    favToggleState.store.favorites = StoredJson.value [2] ∧
    (favClickHandler 0
      (favClickHandler 0 favToggleState).state).state.items =
      favToggleState.items ∧
    (∀ x : Nat,
      x ∈ favsOf (favClickHandler 0
        (favClickHandler 0 favToggleState).state).state.store ↔
      x ∈ favsOf favToggleState.store) := by
  have h := favClick_double_toggle_roundtrip favToggleState 0
    { dataId := 1, favorited := false } [2] (by decide) rfl (by decide)
  exact ⟨by decide, rfl, h.1, h.2⟩

/-- A store with an absent product cache and stored favorites [2], used by
the C2 witness. -/
def favStore : Store Nat :=
  { productCarouselData := .absent, favorites := .value [2] }

/-- The initialization result over favStore when the network returns the
sample products. -/
def favInitResult : InitResult Nat :=
  let items : List (RenderedItem Nat) :=
    [{ dataId := 1, favorited := false }, { dataId := 2, favorited := true }]
  let store : Store Nat :=
    { productCarouselData := .value sampleProducts, favorites := .value [2] }
  { state := { products := sampleProducts, items := items, scrollLeft := 0,
               store := store },
    fetchCount := 1 }

/-- C2 witness: a concrete initialization with stored favorites followed by
three toggles keeps the no-drift correspondence. -/
theorem favorites_no_drift_witness :
    init (FetchResponse.ok sampleProducts) favStore = .ok favInitResult ∧
    (favInitResult.state.items.map RenderedItem.dataId).Nodup ∧
    favoritesInvariant favInitResult.state ∧
    favoritesInvariant (applyToggles [0, 1, 0] favInitResult.state) := by
  have h := favorites_no_drift (FetchResponse.ok sampleProducts) favStore
    favInitResult rfl (by decide) [0, 1, 0]
  exact ⟨rfl, by decide, h.1, h.2⟩

end Carousel
